import Mathlib

/-!
# FinAgentPro core: shallow embedding and verification

Shallow embedding of the workflow-orchestration and fraud-risk-scoring core
of the FinAgentPro backend (`src/backend/agents/fraud_analyzer.py`,
`src/backend/agents/orchestrator.py`, `src/backend/agents/invoice_agent.py`).

Modelling conventions:
- Python floats are modelled as rationals (`ℚ`); all score arithmetic in the
  source is elementary (+, *, /, abs, min, comparisons), so `ℚ` is exact.
- Optional keyword arguments and dict lookups with defaults are modelled with
  `Option` plus explicit `getD` defaults matching the Python `dict.get` calls.
- Python truthiness tests (`if amount and avg and std:`, `if merchant:`) are
  modelled explicitly: a numeric value is truthy iff present and nonzero, a
  string iff present and nonempty, a list iff present and nonempty.
- The global NumPy random stream consumed by `np.random.uniform` is modelled
  as an explicit draw argument in `[0,1]`, so one source-level invocation
  corresponds to one draw value.
- `asyncio` effects are modelled by explicit outcome parameters: a detached
  `asyncio.create_task` contributes a scheduled-task count and its outcome is
  an `Except` value the caller never inspects; `asyncio.gather(...,
  return_exceptions=True)` runs every branch and collects each branch's
  `Except` outcome without propagating any of them.
-/

namespace FinAgent

/-- The fixed feature vector built by `FraudAnalyzerAgent._extract_features`,
with the eight keys in the dict insertion order used by the source. -/
structure FeatureVector where
  amount_zscore : ℚ
  large_amount : ℚ
  merchant_novelty : ℚ
  category_mismatch : ℚ
  off_hours : ℚ
  velocity_1h : ℚ
  velocity_24h : ℚ
  location_distance : ℚ
deriving DecidableEq, Repr

/-- The user-profile fields read by the fraud analyzer
(`FraudAnalyzerAgent._load_user_profile` / `_extract_features`). -/
structure UserProfile where
  avg_transaction : ℚ
  std_transaction : ℚ
  frequent_merchants : List String
  typical_categories : List String
  typical_transaction_hours : List ℕ
deriving DecidableEq, Repr

/-- Python truthiness of an optional float: present and nonzero. -/
def truthyQ : Option ℚ → Bool
  | none => false
  | some v => v != 0

/-- Python truthiness of an optional string: present and nonempty. -/
def truthyStr : Option String → Bool
  | none => false
  | some s => s != ""

/-- `FraudAnalyzerAgent._extract_features`: builds the eight-feature vector
from the observation (amount, merchant, category, timestamp hour) and the
user profile.  The `if amount and avg and std:` guard in the source is a
Python truthiness test on three floats; it sets both amount features in one
block, so the same guard governs both fields here.  `if merchant:` and
`if category:` are truthiness tests on strings. `velocity_1h`,
`velocity_24h` and `location_distance` are the fixed placeholder values
from the source. -/
def extract_features (amount : Option ℚ) (merchant : Option String)
    (category : Option String) (hour : ℕ) (profile : UserProfile) :
    FeatureVector :=
  { amount_zscore :=
      if truthyQ amount ∧ profile.avg_transaction ≠ 0 ∧
          profile.std_transaction ≠ 0 then
        min ((if profile.std_transaction > 0 then
                |(amount.getD 0 - profile.avg_transaction) /
                  profile.std_transaction|
              else 0) / 3) 1
      else 0
    large_amount :=
      if truthyQ amount ∧ profile.avg_transaction ≠ 0 ∧
          profile.std_transaction ≠ 0 then
        (if amount.getD 0 > profile.avg_transaction +
            3 * profile.std_transaction then 1 else 0)
      else 0
    merchant_novelty :=
      if truthyStr merchant then
        (if merchant.getD "" ∈ profile.frequent_merchants then 0 else 1)
      else 0.5
    category_mismatch :=
      if truthyStr category then
        (if category.getD "" ∈ profile.typical_categories then 0 else 0.6)
      else 0.3
    off_hours :=
      if hour ∈ profile.typical_transaction_hours then 0 else 0.8
    velocity_1h := 0.2
    velocity_24h := 0.1
    location_distance := 0.1 }

/-- The fixed demo profile returned by `FraudAnalyzerAgent._load_user_profile`
(restricted to the fields `_extract_features` reads). -/
def demo_profile : UserProfile :=
  { avg_transaction := 250
    std_transaction := 150
    frequent_merchants := ["Amazon", "Office Depot", "Starbucks", "Shell Gas"]
    typical_categories := ["Office Supplies", "Meals & Entertainment", "Travel"]
    typical_transaction_hours := [9, 10, 11, 12, 13, 14, 15, 16, 17] }

/-- The `rule_scores` list built by `FraudAnalyzerAgent._apply_fraud_rules`:
each fired rule contributes its `(name, points)` pair, in source order. -/
def rule_scores (f : FeatureVector) : List (String × ℚ) :=
  (if f.large_amount > 0 then [("large_amount", (40 : ℚ))] else []) ++
  (if f.velocity_1h > 0.5 then [("rapid_transactions", (35 : ℚ))] else []) ++
  (if f.merchant_novelty > 0.8 then [("new_merchant", (25 : ℚ))] else []) ++
  (if f.off_hours > 0.5 then [("off_hours", (15 : ℚ))] else []) ++
  (if f.location_distance > 0.7 then [("location_anomaly", (30 : ℚ))] else [])

/-- `FraudAnalyzerAgent._apply_fraud_rules`: sums the fired rules' points and
caps at 100; an empty fired list yields 0. -/
def apply_fraud_rules (f : FeatureVector) : ℚ :=
  let rs := rule_scores f
  if rs = [] then 0 else min ((rs.map Prod.snd).sum) 100

/-- `FraudAnalyzerAgent._ml_anomaly_detection`: the source draws
`np.random.uniform(20, 80)` from the global NumPy random stream and ignores
the prepared feature vector; with the stream modelled as an explicit unit
draw `u ∈ [0,1]`, the returned score is `20 + 60·u`. -/
def ml_anomaly_detection (_features : FeatureVector) (draw : ℚ) : ℚ :=
  20 + 60 * draw

/-- `FraudAnalyzerAgent._calculate_composite_score`: weighted combination,
60% ML and 40% rules, capped at 100. -/
def calculate_composite_score (ml_score rule_score : ℚ) : ℚ :=
  min (ml_score * 0.6 + rule_score * 0.4) 100

/-- The severity component of `FraudAnalyzerAgent._determine_response`,
with the thresholds dict `{critical: 90, high: 80, medium: 70, low: 60}`. -/
def determine_severity (risk_score : ℚ) : String :=
  if risk_score ≥ 90 then "critical"
  else if risk_score ≥ 80 then "high"
  else if risk_score ≥ 70 then "medium"
  else if risk_score ≥ 60 then "low"
  else "none"

/-- The recommended-actions component of
`FraudAnalyzerAgent._determine_response`. -/
def recommended_actions (risk_score : ℚ) : List String :=
  if risk_score ≥ 90 then
    ["Block transaction immediately", "Require multi-factor authentication",
     "Notify security team", "Send SMS alert to user"]
  else if risk_score ≥ 80 then
    ["Hold transaction for review", "Require 2FA verification",
     "Send email alert"]
  else if risk_score ≥ 70 then
    ["Flag for manual review", "Send notification to user",
     "Monitor subsequent transactions"]
  else if risk_score ≥ 60 then
    ["Log for analysis", "Continue monitoring"]
  else
    ["Approve transaction"]

/-- The `requires_review` field of the result of
`FraudAnalyzerAgent.analyze_transaction`: `composite ≥ thresholds["medium"]`. -/
def requires_review (composite : ℚ) : Bool :=
  decide (composite ≥ 70)

/-- The `auto_block` field of the result of
`FraudAnalyzerAgent.analyze_transaction`: `composite ≥ thresholds["critical"]`. -/
def auto_block (composite : ℚ) : Bool :=
  decide (composite ≥ 90)

/-- Rank of a severity string in the ordered enum
`none < low < medium < high < critical`. -/
def severity_rank (s : String) : ℕ :=
  if s = "critical" then 4
  else if s = "high" then 3
  else if s = "medium" then 2
  else if s = "low" then 1
  else 0

/-- `features.items()` of the dict built by `_extract_features`: the
`(name, value)` pairs in insertion order. -/
def feature_items (f : FeatureVector) : List (String × ℚ) :=
  [("amount_zscore", f.amount_zscore),
   ("large_amount", f.large_amount),
   ("merchant_novelty", f.merchant_novelty),
   ("category_mismatch", f.category_mismatch),
   ("off_hours", f.off_hours),
   ("velocity_1h", f.velocity_1h),
   ("velocity_24h", f.velocity_24h),
   ("location_distance", f.location_distance)]

/-- The `contributing_factors` list comprehension in
`FraudAnalyzerAgent.analyze_transaction`:
`[factor for factor, score in features.items() if score > 0.5]`. -/
def contributing_factors (f : FeatureVector) : List String :=
  ((feature_items f).filter (fun p => decide (p.2 > 0.5))).map Prod.fst

/-- The eight feature names in dict insertion order. -/
def feature_names : List String :=
  ["amount_zscore", "large_amount", "merchant_novelty", "category_mismatch",
   "off_hours", "velocity_1h", "velocity_24h", "location_distance"]

/-- Name-indexed lookup into a feature vector (unknown names read 0). -/
def feature_value (f : FeatureVector) (n : String) : ℚ :=
  if n = "amount_zscore" then f.amount_zscore
  else if n = "large_amount" then f.large_amount
  else if n = "merchant_novelty" then f.merchant_novelty
  else if n = "category_mismatch" then f.category_mismatch
  else if n = "off_hours" then f.off_hours
  else if n = "velocity_1h" then f.velocity_1h
  else if n = "velocity_24h" then f.velocity_24h
  else if n = "location_distance" then f.location_distance
  else 0

/-! ## Workflow orchestrator (`src/backend/agents/orchestrator.py`) -/

/-- One entry of the orchestrator's `active_workflows` dict: the
`workflow_type` and `status` fields (the timestamps, priority and payload
fields the source also stores are irrelevant to the claims). -/
structure WorkflowRecord where
  workflow_type : String
  status : String
deriving DecidableEq, Repr

/-- The four registered workflow types, the keys of
`WorkflowOrchestrator.workflows`. -/
def workflow_types : List String :=
  ["expense_processing", "invoice_creation", "fraud_detection",
   "cashflow_forecast"]

/-- The in-place `self.active_workflows[workflow_id].update({"status": ...})`
performed by `execute_workflow`: sets the status of every entry keyed by
`wid` (the source keys the dict by a fresh unique id). -/
def set_status (reg : List (String × WorkflowRecord)) (wid status : String) :
    List (String × WorkflowRecord) :=
  reg.map (fun p => if p.1 = wid then (p.1, { p.2 with status := status }) else p)

/-- `WorkflowOrchestrator.execute_workflow`: records the execution as
`running` in `active_workflows`, then looks the type up in the registry;
an unregistered type raises `ValueError("Unknown workflow type: ...")`,
which the `except` handler turns into a `failed` status before re-raising.
A registered type delegates to its workflow body (abstracted here as `run`),
marking the entry `completed` on success and `failed` on an escaping
exception.  Returns the caller-visible outcome and the updated registry. -/
def execute_workflow (registry : List (String × WorkflowRecord))
    (workflow_id : String) (workflow_type : String)
    (run : String → Except String String) :
    Except String String × List (String × WorkflowRecord) :=
  let reg1 := registry ++ [(workflow_id, ⟨workflow_type, "running"⟩)]
  if workflow_type ∈ workflow_types then
    match run workflow_type with
    | .ok res => (.ok res, set_status reg1 workflow_id "completed")
    | .error e => (.error e, set_status reg1 workflow_id "failed")
  else
    (.error ("Unknown workflow type: " ++ workflow_type),
     set_status reg1 workflow_id "failed")

/-- The fields of the classifier's `expense_result` dict read by
`_expense_processing_workflow`; absent keys are modelled as `none` and read
through the same defaults as the source's `dict.get` calls. -/
structure ExpenseClassified where
  amount : Option ℚ
  classification_confidence : Option ℚ
deriving DecidableEq, Repr

/-- The outcome of `_expense_processing_workflow` as far as the claims
observe it: the `status` and `review_reason` keys written into
`expense_result`, whether a fraud analysis was attached (with its
`risk_score`), and how many detached forecast-update tasks were scheduled
via `asyncio.create_task`. -/
structure ExpenseOutcome where
  status : String
  review_reason : Option String
  fraud_analysis : Option ℚ
  forecast_tasks : ℕ
deriving DecidableEq, Repr

/-- `WorkflowOrchestrator._expense_processing_workflow` after classification:
fraud analysis runs when `expense_result.get("amount", 0) > 100`, producing
`risk` as its `risk_score`; `needs_review` is
`confidence < 0.9 or (fraud_result and risk_score >= 70)`; the review branch
marks `pending_review` with a reason, the other branch marks `approved` and
schedules exactly one detached forecast-update task whose outcome
`forecast_update` is never awaited or inspected by this workflow. -/
def expense_processing_workflow (e : ExpenseClassified) (risk : ℚ)
    (_forecast_update : Except String Unit) : ExpenseOutcome :=
  let amount := e.amount.getD 0
  let conf := e.classification_confidence.getD 1
  let fraud_result : Option ℚ := if amount > 100 then some risk else none
  let needs_review : Prop :=
    conf < 0.9 ∨ (fraud_result.isSome ∧ fraud_result.getD 0 ≥ 70)
  if needs_review then
    { status := "pending_review"
      review_reason := some (if conf < 0.9 then "Low classification confidence"
                             else "High fraud risk detected")
      fraud_analysis := fraud_result
      forecast_tasks := 0 }
  else
    { status := "approved"
      review_reason := none
      fraud_analysis := fraud_result
      forecast_tasks := 1 }

/-! ## Invoice agent (`src/backend/agents/invoice_agent.py`) -/

/-- One entry of the `items` list of the invoice data, as seen by
`_validate_invoice_data`, which only tests key presence
(`all(k in item for k in ["description", "quantity", "unit_price"])`). -/
structure InvoiceItem where
  has_description : Bool
  has_quantity : Bool
  has_unit_price : Bool
deriving DecidableEq, Repr

/-- The invoice-data fields read by `_validate_invoice_data`. -/
structure InvoiceData where
  client_name : Option String
  items : Option (List InvoiceItem)
deriving DecidableEq, Repr

/-- Python truthiness of the optional `items` list: present and nonempty. -/
def truthyItems : Option (List InvoiceItem) → Bool
  | none => false
  | some l => !l.isEmpty

/-- `all(k in item for k in ["description", "quantity", "unit_price"])`. -/
def item_complete (it : InvoiceItem) : Bool :=
  it.has_description && it.has_quantity && it.has_unit_price

/-- `InvoiceAgent._validate_invoice_data`: collects the required fields
(`client_name`, `items`) that are falsy, then appends one item-details
entry when some present item lacks a required key; valid iff no field is
missing.  Returns `(is_valid, missing_fields)`. -/
def validate_invoice_data (d : InvoiceData) : Bool × List String :=
  let missing0 :=
    (if truthyStr d.client_name then [] else ["client_name"]) ++
    (if truthyItems d.items then [] else ["items"])
  let missing :=
    if truthyItems d.items ∧ ¬ (d.items.getD []).all item_complete then
      missing0 ++ ["Complete item details (description, quantity, unit_price)"]
    else missing0
  (missing.isEmpty, missing)

/-- The part of the result of `InvoiceAgent.create_invoice` the workflow
inspects: either the early `status: "incomplete"` dict with its
`missing_fields`, or the completed draft invoice (whose number, PDF and
payment link come from collaborators abstracted by `invoice_id`). -/
inductive InvoiceResult where
  | incomplete (missing_fields : List String) (message : String)
  | draft (invoice_id : String)
deriving DecidableEq, Repr

/-- `InvoiceAgent.create_invoice` on structured data: validates, returning
the incomplete dict when validation fails, and otherwise proceeding through
numbering, totals, PDF and payment-link steps to a draft invoice. -/
def create_invoice (d : InvoiceData) (invoice_id : String) : InvoiceResult :=
  let v := validate_invoice_data d
  if v.1 then .draft invoice_id
  else .incomplete v.2 "Please provide missing information"

/-- The workflow input fields `_invoice_creation_workflow` reads from
`data["input"]`. -/
structure InvoiceWorkflowInput where
  data : InvoiceData
  send_email : Bool
  webhook_url : Option String
deriving DecidableEq, Repr

/-- The fan-out task list built by `_invoice_creation_workflow` after a
successful creation, in source order: email when `send_email` is set, the
CRM update always, the webhook when `webhook_url` is truthy. -/
def invoice_fanout_tasks (inp : InvoiceWorkflowInput) : List String :=
  (if inp.send_email then ["send_email"] else []) ++
  ["update_crm"] ++
  (if truthyStr inp.webhook_url then ["trigger_webhook"] else [])

/-- `WorkflowOrchestrator._invoice_creation_workflow`: creates the invoice;
an incomplete result returns immediately with no side-effect call; otherwise
the fan-out tasks all run under `asyncio.gather(..., return_exceptions=True)`,
which collects each branch's outcome (given by `branch_outcome`) without
propagating any exception, and the workflow returns the invoice result
unchanged.  The second component lists the executed side-effect calls with
their outcomes. -/
def invoice_creation_workflow (inp : InvoiceWorkflowInput)
    (invoice_id : String) (branch_outcome : String → Except String Unit) :
    InvoiceResult × List (String × Except String Unit) :=
  match create_invoice inp.data invoice_id with
  | .incomplete m msg => (.incomplete m msg, [])
  | .draft iid =>
    ((.draft iid),
     (invoice_fanout_tasks inp).map (fun t => (t, branch_outcome t)))

/-! ## Spec-side definitions used to state the claims -/

/-- The sum of the fixed points of exactly the fired rules, as the spec's
rule table states it: `large_amount > 0 → 40`, `velocity_1h > 0.5 → 35`,
`merchant_novelty > 0.8 → 25`, `off_hours > 0.5 → 15`,
`location_distance > 0.7 → 30`. -/
def fired_points (f : FeatureVector) : ℚ :=
  (if f.large_amount > 0 then 40 else 0) +
  (if f.velocity_1h > 0.5 then 35 else 0) +
  (if f.merchant_novelty > 0.8 then 25 else 0) +
  (if f.off_hours > 0.5 then 15 else 0) +
  (if f.location_distance > 0.7 then 30 else 0)

/-- The `amount_zscore` formula exactly as the spec states it:
`min(|amount − avg| / std, 3) / 3` when `std > 0`, else 0. -/
def spec_amount_zscore (amount avg std : ℚ) : ℚ :=
  if std > 0 then min (|amount - avg| / std) 3 / 3 else 0

/-- Membership in the unit interval `[0,1]`. -/
def in01 (x : ℚ) : Prop := 0 ≤ x ∧ x ≤ 1

/-! ## Theorems -/

/-- Claim C1: for every pair of anomaly score and rule score in `[0,100]²`,
the Composite Scorer returns `composite = min(0.6·anomaly + 0.4·rule, 100)`,
and this result lies in `[0,100]`. -/
theorem composite_scorer_spec (a r : ℚ) (ha0 : 0 ≤ a) (ha1 : a ≤ 100)
    (hr0 : 0 ≤ r) (hr1 : r ≤ 100) :
    calculate_composite_score a r = min (0.6 * a + 0.4 * r) 100 ∧
    0 ≤ calculate_composite_score a r ∧
    calculate_composite_score a r ≤ 100 := by
  unfold calculate_composite_score
  refine ⟨by rw [show a * 0.6 + r * 0.4 = 0.6 * a + 0.4 * r from by ring],
    ?_, min_le_right _ _⟩
  have h : (0 : ℚ) ≤ a * 0.6 + r * 0.4 := by nlinarith
  exact le_min h (by norm_num)

/-- Witness for C1 at the concrete pair (50, 100). -/
theorem composite_scorer_spec_witness :
    calculate_composite_score 50 100 = min (0.6 * 50 + 0.4 * 100) 100 ∧
    0 ≤ calculate_composite_score 50 100 ∧
    calculate_composite_score 50 100 ≤ 100 :=
  composite_scorer_spec 50 100 (by norm_num) (by norm_num) (by norm_num)
    (by norm_num)

/-- Claim C2: the severity tier is the step function with inclusive lower
bounds critical ≥ 90, high ≥ 80, medium ≥ 70, low ≥ 60, else none (hence
monotone in the composite score); `requires_review` holds iff
composite ≥ 70 and `auto_block` holds iff composite ≥ 90, so `auto_block`
implies `requires_review`. -/
theorem severity_policy_spec (c c' : ℚ) (hcc : c ≤ c') :
    (determine_severity c = "critical" ↔ 90 ≤ c) ∧
    (determine_severity c = "high" ↔ 80 ≤ c ∧ c < 90) ∧
    (determine_severity c = "medium" ↔ 70 ≤ c ∧ c < 80) ∧
    (determine_severity c = "low" ↔ 60 ≤ c ∧ c < 70) ∧
    (determine_severity c = "none" ↔ c < 60) ∧
    severity_rank (determine_severity c) ≤
      severity_rank (determine_severity c') ∧
    (requires_review c = true ↔ 70 ≤ c) ∧
    (auto_block c = true ↔ 90 ≤ c) ∧
    (auto_block c = true → requires_review c = true) := by
  have hrank : ∀ x : ℚ, severity_rank (determine_severity x) =
      if 90 ≤ x then 4 else if 80 ≤ x then 3 else if 70 ≤ x then 2
      else if 60 ≤ x then 1 else 0 := by
    intro x
    unfold determine_severity severity_rank
    split_ifs <;> simp_all
  refine ⟨?_, ?_, ?_, ?_, ?_, ?_, ?_, ?_, ?_⟩
  · unfold determine_severity; split_ifs <;> simp_all
  · unfold determine_severity
    split_ifs <;> simp_all <;> intro h <;> linarith
  · unfold determine_severity
    split_ifs <;> simp_all <;> intro h <;> linarith
  · unfold determine_severity
    split_ifs <;> simp_all <;> intro h <;> linarith
  · unfold determine_severity; split_ifs <;> simp_all <;> linarith
  · rw [hrank, hrank]
    split_ifs <;> norm_num <;> linarith
  · simp [requires_review]
  · simp [auto_block]
  · simp [requires_review, auto_block]
    intro h; linarith

/-- Witness for C2 at the concrete pair (75, 95). -/
theorem severity_policy_spec_witness :
    severity_rank (determine_severity (75 : ℚ)) ≤
      severity_rank (determine_severity (95 : ℚ)) :=
  (severity_policy_spec 75 95 (by norm_num)).2.2.2.2.2.1

/-- Claim C3: for every feature vector, the Rule Engine score equals the sum
of the fixed points of exactly the fired rules capped at 100; the score lies
in `[0,100]`, is never negative, and evaluating twice on the identical
feature vector yields the identical score. -/
theorem rule_engine_spec (f : FeatureVector) :
    apply_fraud_rules f = min (fired_points f) 100 ∧
    0 ≤ apply_fraud_rules f ∧
    apply_fraud_rules f ≤ 100 ∧
    apply_fraud_rules f = apply_fraud_rules f := by
  have key : apply_fraud_rules f = min (fired_points f) 100 := by
    unfold apply_fraud_rules rule_scores fired_points
    split_ifs <;> simp_all <;> norm_num [min_def]
  refine ⟨key, ?_, ?_, rfl⟩
  · rw [key]
    refine le_min ?_ (by norm_num)
    unfold fired_points
    split_ifs <;> norm_num
  · rw [key]
    exact min_le_right _ _

/-- Filtering value-tagged pairs by a threshold on the value and keeping the
names is the same as filtering the names by the threshold on their values. -/
lemma filter_threshold_of_map_pairs (g : String → ℚ) (l : List String) :
    (((l.map (fun n => (n, g n))).filter
        (fun p => decide (p.2 > 0.5))).map Prod.fst) =
      l.filter (fun n => decide (g n > 0.5)) := by
  induction l with
  | nil => rfl
  | cons a as ih =>
    by_cases h : g a > 0.5 <;> simp [List.filter_cons, h, ih]

/-- Claim C10: the `contributing_factors` list contains exactly the feature
names whose value exceeds 0.5, in the fixed construction order of the
feature vector. -/
theorem contributing_factors_spec (f : FeatureVector) :
    contributing_factors f =
      feature_names.filter (fun n => decide (feature_value f n > 0.5)) := by
  have hfi : feature_items f =
      feature_names.map (fun n => (n, feature_value f n)) := rfl
  rw [contributing_factors, hfi, filter_threshold_of_map_pairs]

/-- Rescaling a capped ratio: `min(z/3, 1) = min(z, 3)/3`. -/
lemma min_div_three (z : ℚ) : min (z / 3) 1 = min z 3 / 3 := by
  rcases le_total z 3 with h | h
  · rw [min_eq_left (by linarith : z / 3 ≤ 1), min_eq_left h]
  · rw [min_eq_right (by linarith : (1 : ℚ) ≤ z / 3), min_eq_right h]
    norm_num

/-- Counterexample to claim C4 as stated: at a present amount of 0 with the
demo profile (avg 250, std 150 > 0), the extractor returns amount_zscore 0
(the source's truthiness guard `if amount and avg and std:` treats a zero
amount as missing), while the claimed formula yields 5/9. -/
theorem extract_features_c4_counterexample :
    (extract_features (some 0) none none 12 demo_profile).amount_zscore = 0 ∧
    spec_amount_zscore 0 demo_profile.avg_transaction
      demo_profile.std_transaction = 5 / 9 ∧
    (0 : ℚ) ≠ 5 / 9 := by
  refine ⟨?_, ?_, by norm_num⟩
  · simp [extract_features, truthyQ, demo_profile]
  · show spec_amount_zscore 0 250 150 = 5 / 9
    rw [spec_amount_zscore, if_pos (by norm_num : (150 : ℚ) > 0),
      show (0 : ℚ) - 250 = -250 by norm_num, abs_neg,
      abs_of_nonneg (by norm_num : (0 : ℚ) ≤ 250),
      min_eq_left (by norm_num : (250 : ℚ) / 150 ≤ 3)]
    norm_num

/-- Claim C4 (amended): the Feature Extractor is total and returns all eight
features with values in `[0,1]`; the amount formulas apply when amount, avg
and std are all present and nonzero (Python truthiness), and otherwise both
amount features degrade to 0; a present merchant/category means a nonempty
string; off_hours and the placeholder velocity/location features are as the
spec states. -/
theorem extract_features_spec (amount : Option ℚ)
    (merchant category : Option String) (hour : ℕ) (p : UserProfile)
    (f : FeatureVector)
    (hf : f = extract_features amount merchant category hour p) :
    (in01 f.amount_zscore ∧ in01 f.large_amount ∧ in01 f.merchant_novelty ∧
     in01 f.category_mismatch ∧ in01 f.off_hours ∧ in01 f.velocity_1h ∧
     in01 f.velocity_24h ∧ in01 f.location_distance) ∧
    (truthyQ amount = true → p.avg_transaction ≠ 0 → p.std_transaction ≠ 0 →
      (0 < p.std_transaction →
        f.amount_zscore = spec_amount_zscore (amount.getD 0)
          p.avg_transaction p.std_transaction) ∧
      f.large_amount = (if amount.getD 0 >
        p.avg_transaction + 3 * p.std_transaction then 1 else 0)) ∧
    ((truthyQ amount = false ∨ p.avg_transaction = 0 ∨
        p.std_transaction = 0) →
      f.amount_zscore = 0 ∧ f.large_amount = 0) ∧
    (truthyStr merchant = true →
      f.merchant_novelty =
        (if merchant.getD "" ∈ p.frequent_merchants then 0 else 1)) ∧
    (truthyStr merchant = false → f.merchant_novelty = 0.5) ∧
    (truthyStr category = true →
      f.category_mismatch =
        (if category.getD "" ∈ p.typical_categories then 0 else 0.6)) ∧
    (truthyStr category = false → f.category_mismatch = 0.3) ∧
    f.off_hours = (if hour ∈ p.typical_transaction_hours then 0 else 0.8) ∧
    f.velocity_1h = 0.2 ∧ f.velocity_24h = 0.1 ∧
    f.location_distance = 0.1 := by
  subst hf
  simp only [extract_features]
  refine ⟨⟨?_, ?_, ?_, ?_, ?_, by norm_num [in01], by norm_num [in01],
      by norm_num [in01]⟩, ?_, ?_, ?_, ?_, ?_, ?_, by trivial, by trivial,
      by trivial, by trivial⟩
  · constructor
    · split_ifs with h1 h2
      · exact le_min (div_nonneg (abs_nonneg _) (by norm_num)) (by norm_num)
      · exact le_min (by norm_num) (by norm_num)
      · norm_num
    · split_ifs with h1 h2
      · exact min_le_right _ _
      · exact min_le_right _ _
      · norm_num
  · simp only [in01]; split_ifs <;> norm_num
  · simp only [in01]; split_ifs <;> norm_num
  · simp only [in01]; split_ifs <;> norm_num
  · simp only [in01]; split_ifs <;> norm_num
  · intro h1 h2 h3
    refine ⟨fun hstd => ?_, if_pos ⟨h1, h2, h3⟩⟩
    rw [if_pos (⟨h1, h2, h3⟩ :
        truthyQ amount = true ∧ p.avg_transaction ≠ 0 ∧
          p.std_transaction ≠ 0)]
    rw [if_pos hstd]
    simp only [spec_amount_zscore]
    rw [if_pos hstd, abs_div, abs_of_pos hstd]
    exact min_div_three _
  · intro hcon
    have hneg : ¬ (truthyQ amount = true ∧ p.avg_transaction ≠ 0 ∧
        p.std_transaction ≠ 0) := by
      rintro ⟨h1', h2', h3'⟩
      rcases hcon with h | h | h <;> simp_all
    exact ⟨if_neg hneg, if_neg hneg⟩
  · intro hm; rw [if_pos hm]
  · intro hm
    rw [if_neg (show ¬ truthyStr merchant = true by simp [hm])]
  · intro hc; rw [if_pos hc]
  · intro hc
    rw [if_neg (show ¬ truthyStr category = true by simp [hc])]

/-- Witness for C4 (amended): spec scenario A's amount 5000 against the demo
profile (avg 250, std 150) fires the large-amount feature. -/
theorem extract_features_spec_witness :
    (extract_features (some 5000) (some "Tech Supplies Intl") none 2
      demo_profile).large_amount = 1 := by
  have h := (extract_features_spec (some 5000) (some "Tech Supplies Intl")
    none 2 demo_profile _ rfl).2.1 (by decide)
    (by norm_num [demo_profile]) (by norm_num [demo_profile])
  rw [h.2, if_pos (by norm_num [demo_profile] : (some (5000 : ℚ)).getD 0 >
    demo_profile.avg_transaction + 3 * demo_profile.std_transaction)]

/-- Claim C5: for every expense_processing execution, fraud analysis runs iff
the classified amount exceeds the materiality threshold 100; the result is
pending_review with a stated reason iff confidence < 0.9 or the fraud risk
score is ≥ 70; otherwise it is approved with exactly one detached
forecast-update task scheduled, whose outcome never changes the result. -/
theorem expense_processing_spec (e : ExpenseClassified) (risk : ℚ)
    (o o' : Except String Unit) :
    ((expense_processing_workflow e risk o).fraud_analysis.isSome = true ↔
      e.amount.getD 0 > 100) ∧
    ((expense_processing_workflow e risk o).status = "pending_review" ↔
      (e.classification_confidence.getD 1 < 0.9 ∨
        (e.amount.getD 0 > 100 ∧ risk ≥ 70))) ∧
    ((expense_processing_workflow e risk o).status = "approved" ↔
      ¬ (e.classification_confidence.getD 1 < 0.9 ∨
        (e.amount.getD 0 > 100 ∧ risk ≥ 70))) ∧
    ((expense_processing_workflow e risk o).status = "pending_review" →
      ((expense_processing_workflow e risk o).review_reason.isSome = true ∧
       (expense_processing_workflow e risk o).forecast_tasks = 0)) ∧
    ((expense_processing_workflow e risk o).status = "approved" →
      (expense_processing_workflow e risk o).forecast_tasks = 1) ∧
    expense_processing_workflow e risk o =
      expense_processing_workflow e risk o' := by
  by_cases hamt : e.amount.getD 0 > 100 <;>
    by_cases hconf : e.classification_confidence.getD 1 < 0.9 <;>
      by_cases hrisk : risk ≥ 70 <;>
        simp [expense_processing_workflow, hamt, hconf, hrisk]

/-- Witness for C5: spec scenario D, confidence 0.95 and amount 50 below the
materiality threshold, is approved with one forecast task scheduled. -/
theorem expense_processing_spec_witness :
    (expense_processing_workflow ⟨some 50, some 0.95⟩ 0
      (Except.ok ())).status = "approved" :=
  (expense_processing_spec ⟨some 50, some 0.95⟩ 0 (Except.ok ())
    (Except.error "boom")).2.2.1.mpr (by norm_num)

/-- Counterexample to claim C6 as stated: executing an unregistered workflow
type against an empty registry leaves a failed execution record behind, so
the registry of active workflow executions is not what it was before the
call (`execute_workflow` inserts the running record before validating the
type). -/
theorem execute_workflow_c6_counterexample :
    (execute_workflow [] "wf_x" "bogus" (fun _ => Except.ok "r")).2 ≠
      ([] : List (String × WorkflowRecord)) ∧
    (execute_workflow [] "wf_x" "bogus" (fun _ => Except.ok "r")).1 =
      Except.error "Unknown workflow type: bogus" := by
  constructor
  · simp [execute_workflow, workflow_types, set_status]
  · simp [execute_workflow, workflow_types, set_status]

/-- Keying the status update by an id that no existing entry carries leaves
the registry unchanged. -/
lemma set_status_fresh (reg : List (String × WorkflowRecord))
    (wid status : String) (h : ∀ p ∈ reg, p.1 ≠ wid) :
    set_status reg wid status = reg := by
  induction reg with
  | nil => rfl
  | cons a as ih =>
    simp only [set_status, List.map_cons]
    rw [if_neg (h a (by simp))]
    have := ih (fun p hp => h p (by simp [hp]))
    simp only [set_status] at this
    rw [this]

/-- `set_status` distributes over list append. -/
lemma set_status_append (l1 l2 : List (String × WorkflowRecord))
    (wid status : String) :
    set_status (l1 ++ l2) wid status =
      set_status l1 wid status ++ set_status l2 wid status := by
  simp [set_status]

/-- Claim C6 (amended): for a workflow type not among the four registered
types and a fresh workflow id, `execute_workflow` fails with the
unknown-workflow-type error, and the registry gains exactly one new entry —
the fresh id, first recorded as running and then marked failed by the
exception handler; every pre-existing entry is unchanged. -/
theorem execute_workflow_unknown_type_spec
    (registry : List (String × WorkflowRecord)) (wid wtype : String)
    (run : String → Except String String)
    (hw : wtype ∉ workflow_types) (hfresh : ∀ p ∈ registry, p.1 ≠ wid) :
    (execute_workflow registry wid wtype run).1 =
      Except.error ("Unknown workflow type: " ++ wtype) ∧
    (execute_workflow registry wid wtype run).2 =
      registry ++ [(wid, ⟨wtype, "failed"⟩)] := by
  unfold execute_workflow
  rw [if_neg hw]
  refine ⟨rfl, ?_⟩
  rw [set_status_append, set_status_fresh registry wid _ hfresh]
  simp [set_status]

/-- Witness for C6 (amended) at a singleton registry and the type "bogus". -/
theorem execute_workflow_unknown_type_spec_witness :
    (execute_workflow [("wf_0", ⟨"fraud_detection", "completed"⟩)] "wf_1"
      "bogus" (fun _ => Except.ok "r")).2 =
      [("wf_0", ⟨"fraud_detection", "completed"⟩),
       ("wf_1", ⟨"bogus", "failed"⟩)] :=
  (execute_workflow_unknown_type_spec
    [("wf_0", ⟨"fraud_detection", "completed"⟩)] "wf_1" "bogus"
    (fun _ => Except.ok "r") (by decide) (by decide)).2

/-- Claim C7: an invoice_creation execution whose structured input fails
validation returns the incomplete result carrying a nonempty missing_fields
list and performs zero post-creation side-effect calls. -/
theorem invoice_incomplete_spec (inp : InvoiceWorkflowInput) (iid : String)
    (bo : String → Except String Unit)
    (h : (validate_invoice_data inp.data).1 = false) :
    (invoice_creation_workflow inp iid bo).1 =
      InvoiceResult.incomplete (validate_invoice_data inp.data).2
        "Please provide missing information" ∧
    (validate_invoice_data inp.data).2 ≠ [] ∧
    (invoice_creation_workflow inp iid bo).2 = [] := by
  refine ⟨?_, ?_, ?_⟩
  · simp [invoice_creation_workflow, create_invoice, h]
  · intro hnil
    rw [show (validate_invoice_data inp.data).1 =
      (validate_invoice_data inp.data).2.isEmpty from rfl, hnil] at h
    exact absurd h (by simp)
  · simp [invoice_creation_workflow, create_invoice, h]

/-- Witness for C7: structured data with a client name but no line items. -/
theorem invoice_incomplete_spec_witness :
    (invoice_creation_workflow ⟨⟨some "Acme Corp", none⟩, false, none⟩
      "inv_1" (fun _ => Except.ok ())).2 = [] :=
  (invoice_incomplete_spec ⟨⟨some "Acme Corp", none⟩, false, none⟩ "inv_1"
    (fun _ => Except.ok ()) (by decide)).2.2

/-- Claim C8: for an invoice_creation execution that passes validation, the
fan-out branch outcomes never change the returned invoice result or its
successful status, and every configured branch executes regardless of the
outcomes of its siblings. -/
theorem invoice_fanout_isolation_spec (inp : InvoiceWorkflowInput)
    (iid : String) (bo bo' : String → Except String Unit)
    (h : (validate_invoice_data inp.data).1 = true) :
    (invoice_creation_workflow inp iid bo).1 = InvoiceResult.draft iid ∧
    (invoice_creation_workflow inp iid bo).1 =
      (invoice_creation_workflow inp iid bo').1 ∧
    ((invoice_creation_workflow inp iid bo).2).map Prod.fst =
      invoice_fanout_tasks inp := by
  refine ⟨?_, ?_, ?_⟩
  · simp [invoice_creation_workflow, create_invoice, h]
  · simp [invoice_creation_workflow, create_invoice, h]
  · simp only [invoice_creation_workflow, create_invoice, h, if_true,
      List.map_map]
    rw [show (Prod.fst ∘ fun t => (t, bo t)) = id from rfl, List.map_id]

/-- Witness for C8: a complete invoice with email and webhook configured,
where every fan-out branch throws, still returns the draft invoice. -/
theorem invoice_fanout_isolation_spec_witness :
    (invoice_creation_workflow
      ⟨⟨some "Acme Corp", some [⟨true, true, true⟩]⟩, true,
        some "https://hooks.example"⟩ "inv_9"
      (fun _ => Except.error "boom")).1 = InvoiceResult.draft "inv_9" :=
  (invoice_fanout_isolation_spec
    ⟨⟨some "Acme Corp", some [⟨true, true, true⟩]⟩, true,
      some "https://hooks.example"⟩ "inv_9"
    (fun _ => Except.error "boom") (fun _ => Except.ok ()) (by decide)).1

/-- Claim C9 is contradicted by the reference implementation: the Anomaly
Scorer's result is a function of the global random stream, not of the model
state and feature vector — two invocations on the identical feature vector
with different stream draws return different scores. -/
theorem ml_anomaly_depends_on_random_draw :
    ml_anomaly_detection
        (extract_features (some 45) (some "Amazon") none 12 demo_profile)
        0 ≠
      ml_anomaly_detection
        (extract_features (some 45) (some "Amazon") none 12 demo_profile)
        (1 / 2) := by
  norm_num [ml_anomaly_detection]

end FinAgent
